import Mathlib

/-!
Verification development for the NOVA AI backend proxy (src/main.py).

The embedding models the relay/state core: per-identity rate limiting
(`rate_limit`), the rolling conversation memory (`save_memory`), the SSE
stream parser (`stream_response` with a faithful model of json.loads),
the chat orchestrator (`chat`) and the reset endpoint (`reset`).

Python dictionaries are modelled as association lists with unique keys
(`dlookup`, `dset`, `dsetdefault`, `dpop`); `time.time()` and
`uuid.uuid4()` are oracle inputs (`now : Int`, whole seconds suffice
for every claim, and `fresh : String`); the
upstream HTTP stream is an oracle value of type `Upstream` listing the
delivered line chunks and an optional transport failure.
-/

set_option autoImplicit false

/-- Model of dict lookup `m[k]` / `m.get(k)`: first entry with the key. -/
def dlookup {α : Type} : List (String × α) → String → Option α
  | [], _ => none
  | (k, v) :: rest, key => if k = key then some v else dlookup rest key

/-- Model of dict assignment `m[k] = v`: replace in place, else append. -/
def dset {α : Type} : List (String × α) → String → α → List (String × α)
  | [], key, v => [(key, v)]
  | (k, w) :: rest, key, v =>
      if k = key then (k, v) :: rest else (k, w) :: dset rest key v

/-- Model of `m.setdefault(k, v)`. -/
def dsetdefault {α : Type} (m : List (String × α)) (key : String) (v : α) :
    List (String × α) :=
  match dlookup m key with
  | some _ => m
  | none => m ++ [(key, v)]

/-- Model of `m.pop(k, None)`: the mapping no longer contains the key.
Dict keys are unique, so removing every entry with the key is faithful. -/
def dpop {α : Type} : List (String × α) → String → List (String × α)
  | [], _ => []
  | p :: rest, key => if p.1 = key then dpop rest key else p :: dpop rest key

/-- One chat message dict `\x7b"role": ..., "content": ...\x7d`. -/
structure Turn where
  role : String
  content : String
deriving DecidableEq, Repr

/-- The process-wide mutable state of main.py: `USER_MEMORY`,
`USER_REQUESTS` and the two `STATS` counters. -/
structure ServerState where
  user_memory : List (String × List Turn)
  user_requests : List (String × List Int)
  stats_requests : Nat
  stats_blocked : Nat
deriving DecidableEq, Repr

/-- Fresh state at process start: empty maps, zero counters. -/
def initState : ServerState := ⟨[], [], 0, 0⟩

/-- `REQUESTS_PER_MINUTE = 30` (main.py line 46). -/
def REQUESTS_PER_MINUTE : Nat := 30

/-- `MAX_MESSAGE_LENGTH = 3000` (main.py line 47). -/
def MAX_MESSAGE_LENGTH : Nat := 3000

/-- `MAX_MEMORY_MESSAGES = 20` (main.py line 48). -/
def MAX_MEMORY_MESSAGES : Nat := 20

/-- `BASE_SYSTEM_PROMPT` (main.py lines 57-65). -/
def BASE_SYSTEM_PROMPT : String :=
  "\nYou are NOVA, a calm, intelligent, friendly, and confident assistant.\nYou feel human and speak naturally.\nRules:\n- Never mention you are an AI, model, Groq, or any APIs\n- Avoid illegal, harmful, or explicit content\n- Adapt response length to the conversation\n- Be warm, helpful, and a bit playful when it fits\n"

/-- Python whitespace for `str.strip()`. -/
def pyIsSpace (c : Char) : Bool :=
  c == ' ' || c == '\t' || c == '\n' || c == '\r' || c == '\x0b' || c == '\x0c'

/-- Model of `s.strip()`. -/
def pystrip (s : String) : String :=
  ⟨((s.data.dropWhile pyIsSpace).reverse.dropWhile pyIsSpace).reverse⟩

/-- Model of `s[n:]`. -/
def strDrop (s : String) (n : Nat) : String := ⟨s.data.drop n⟩

/-- Model of `s.startswith(p)`. -/
def strStartsWith (s p : String) : Bool := p.data.isPrefixOf s.data

/-- The last `n` elements of a list in order (Python slice `l[-n:]`). -/
def rtake {α : Type} (l : List α) (n : Nat) : List α :=
  l.drop (l.length - n)

/-- `get_user_id` (main.py lines 85-86): `uid or str(uuid.uuid4())`.
An empty string is falsy in Python, so it also triggers a fresh id. -/
def get_user_id (uid : Option String) (fresh : String) : String :=
  match uid with
  | some u => if u = "" then fresh else u
  | none => fresh

/-- `rate_limit` (main.py lines 88-95). The two `now()` calls of the
source are modelled by the single oracle value `now`. -/
def rate_limit (now : Int) (uid : String) (s : ServerState) :
    Bool × ServerState :=
  let base := dsetdefault s.user_requests uid []
  let pruned :=
    ((dlookup base uid).getD []).filter (fun t => decide (now - t < 60))
  let reqs := dset base uid pruned
  if REQUESTS_PER_MINUTE ≤ pruned.length then
    (false, { s with user_requests := reqs,
                     stats_blocked := s.stats_blocked + 1 })
  else
    (true, { s with user_requests := dset reqs uid (pruned ++ [now]) })

/-- `build_messages` (main.py lines 97-99). -/
def build_messages (uid : String) (msg : String)
    (mem : List (String × List Turn)) : List Turn :=
  let history := (dlookup mem uid).getD []
  ⟨"system", BASE_SYSTEM_PROMPT⟩ :: (history ++ [⟨"user", msg⟩])

/-- `save_memory` (main.py lines 101-107): append the user and assistant
turns, then keep the trailing `MAX_MEMORY_MESSAGES * 2` entries. -/
def save_memory (uid user_msg ai_msg : String) (s : ServerState) :
    ServerState :=
  let mem := dsetdefault s.user_memory uid []
  let h := (dlookup mem uid).getD []
  let h := h ++ [⟨"user", user_msg⟩, ⟨"assistant", ai_msg⟩]
  { s with user_memory := dset mem uid (rtake h (MAX_MEMORY_MESSAGES * 2)) }

/-- Model of the JSON values produced by `json.loads`. Numerals are kept
as their raw text; the stream parser only ever reads string leaves. -/
inductive JValue where
  | null
  | bool (b : Bool)
  | num (raw : String)
  | str (s : String)
  | arr (xs : List JValue)
  | obj (fields : List (String × JValue))

/-- JSON whitespace. -/
def jsonWs (c : Char) : Bool :=
  c == ' ' || c == '\t' || c == '\n' || c == '\r'

/-- Drop leading JSON whitespace. -/
def skipWs (cs : List Char) : List Char := cs.dropWhile jsonWs

/-- Value of one hexadecimal digit. -/
def hexVal (c : Char) : Option Nat :=
  if '0' ≤ c ∧ c ≤ '9' then some (c.toNat - '0'.toNat)
  else if 'a' ≤ c ∧ c ≤ 'f' then some (c.toNat - 'a'.toNat + 10)
  else if 'A' ≤ c ∧ c ≤ 'F' then some (c.toNat - 'A'.toNat + 10)
  else none

/-- Body of a JSON string literal, positioned after the opening quote;
returns the decoded content and the input after the closing quote. -/
def parseJString : List Char → String → Option (String × List Char)
  | '"' :: rest, acc => some (acc, rest)
  | '\\' :: '"' :: r, acc => parseJString r (acc.push '"')
  | '\\' :: '\\' :: r, acc => parseJString r (acc.push '\\')
  | '\\' :: '/' :: r, acc => parseJString r (acc.push '/')
  | '\\' :: 'b' :: r, acc => parseJString r (acc.push '\x08')
  | '\\' :: 'f' :: r, acc => parseJString r (acc.push '\x0c')
  | '\\' :: 'n' :: r, acc => parseJString r (acc.push '\n')
  | '\\' :: 'r' :: r, acc => parseJString r (acc.push '\r')
  | '\\' :: 't' :: r, acc => parseJString r (acc.push '\t')
  | '\\' :: 'u' :: h1 :: h2 :: h3 :: h4 :: r, acc =>
      (match hexVal h1, hexVal h2, hexVal h3, hexVal h4 with
       | some a, some b, some c, some d =>
           parseJString r (acc.push (Char.ofNat (((a * 16 + b) * 16 + c) * 16 + d)))
       | _, _, _, _ => none)
  | '\\' :: _, _ => none
  | c :: rest, acc => if c.val < 32 then none else parseJString rest (acc.push c)
  | [], _ => none

/-- Exponent tail of a JSON numeral, after the `e` or `E`. -/
def parseExpTail (r : List Char) (e : Char) : Option (List Char × List Char) :=
  let sgn : List Char × List Char :=
    match r with
    | '+' :: rr => (['+'], rr)
    | '-' :: rr => (['-'], rr)
    | _ => ([], r)
  let ds := sgn.2.span (fun d => d.isDigit)
  if ds.1 = [] then none else some (e :: sgn.1 ++ ds.1, ds.2)

/-- A JSON numeral (sign, integer part, optional fraction and exponent),
returned as its raw text. -/
def parseNumber (cs : List Char) : Option (String × List Char) :=
  let sign : List Char × List Char :=
    match cs with
    | '-' :: r => (['-'], r)
    | _ => ([], cs)
  let intRes : Option (List Char × List Char) :=
    match sign.2 with
    | '0' :: r => some (['0'], r)
    | c :: r =>
        if c.isDigit then
          let ds := r.span (fun d => d.isDigit)
          some (c :: ds.1, ds.2)
        else none
    | [] => none
  match intRes with
  | none => none
  | some (ip, cs2) =>
    let fracRes : Option (List Char × List Char) :=
      match cs2 with
      | '.' :: r =>
          let ds := r.span (fun d => d.isDigit)
          if ds.1 = [] then none else some ('.' :: ds.1, ds.2)
      | _ => some ([], cs2)
    match fracRes with
    | none => none
    | some (fp, cs3) =>
      let expRes : Option (List Char × List Char) :=
        match cs3 with
        | 'e' :: r => parseExpTail r 'e'
        | 'E' :: r => parseExpTail r 'E'
        | _ => some ([], cs3)
      match expRes with
      | none => none
      | some (ep, cs4) => some (String.mk (sign.1 ++ ip ++ fp ++ ep), cs4)

mutual

/-- One JSON value; recursion is bounded by the fuel, which strictly
decreases on every nested parse. -/
def parseVal : Nat → List Char → Option (JValue × List Char)
  | 0, _ => none
  | fuel + 1, cs =>
    match skipWs cs with
    | '\x7b' :: rest =>
        (match skipWs rest with
         | '\x7d' :: rest2 => some (.obj [], rest2)
         | _ =>
           match parseMembers fuel rest [] with
           | some (fields, rest2) => some (.obj fields, rest2)
           | none => none)
    | '[' :: rest =>
        (match skipWs rest with
         | ']' :: rest2 => some (.arr [], rest2)
         | _ =>
           match parseElems fuel rest [] with
           | some (xs, rest2) => some (.arr xs, rest2)
           | none => none)
    | '"' :: rest =>
        (match parseJString rest "" with
         | some (s, rest2) => some (.str s, rest2)
         | none => none)
    | 't' :: 'r' :: 'u' :: 'e' :: rest => some (.bool true, rest)
    | 'f' :: 'a' :: 'l' :: 's' :: 'e' :: rest => some (.bool false, rest)
    | 'n' :: 'u' :: 'l' :: 'l' :: rest => some (.null, rest)
    | cs2 =>
        (match parseNumber cs2 with
         | some (raw, rest) => some (.num raw, rest)
         | none => none)

/-- The members of a JSON object, positioned after `\x7b` (or after a
comma), ending at the closing `\x7d`. -/
def parseMembers : Nat → List Char → List (String × JValue) →
    Option (List (String × JValue) × List Char)
  | 0, _, _ => none
  | fuel + 1, cs, acc =>
    match skipWs cs with
    | '"' :: rest =>
        (match parseJString rest "" with
         | none => none
         | some (key, rest2) =>
           match skipWs rest2 with
           | ':' :: rest3 =>
               (match parseVal fuel rest3 with
                | none => none
                | some (v, rest4) =>
                  match skipWs rest4 with
                  | ',' :: rest5 => parseMembers fuel rest5 (acc ++ [(key, v)])
                  | '\x7d' :: rest5 => some (acc ++ [(key, v)], rest5)
                  | _ => none)
           | _ => none)
    | _ => none

/-- The elements of a JSON array, positioned after `[` (or after a
comma), ending at the closing `]`. -/
def parseElems : Nat → List Char → List JValue →
    Option (List JValue × List Char)
  | 0, _, _ => none
  | fuel + 1, cs, acc =>
    match parseVal fuel cs with
    | none => none
    | some (v, rest) =>
      match skipWs rest with
      | ',' :: rest2 => parseElems fuel rest2 (acc ++ [v])
      | ']' :: rest2 => some (acc ++ [v], rest2)
      | _ => none

end

/-- Model of `json.loads`: parse one value, reject trailing data. -/
def json_loads (s : String) : Option JValue :=
  match parseVal (2 * s.data.length + 4) s.data with
  | some (v, rest) => if skipWs rest = [] then some v else none
  | none => none

/-- Object field access `j[k]`; `none` for a missing key or a non-object
(the KeyError or TypeError is caught by the bare `except`). Later
duplicate keys win, as in a Python dict built by `json.loads`. -/
def jget : JValue → String → Option JValue
  | .obj fields, key => dlookup fields.reverse key
  | _, _ => none

/-- Array index access `j[i]`; `none` on a non-array or out of range. -/
def jidx : JValue → Nat → Option JValue
  | .arr xs, i => xs.get? i
  | _, _ => none

/-- `json_data["choices"][0]["delta"]` followed by the `"content" in
delta` guard (main.py lines 131-133). Every failing access raises inside
the `try` and is swallowed by `except: continue`; a non-string content
raises at `full_response += content` before the yield, so only a string
content is ever yielded. -/
def extract_content (j : JValue) : Option String :=
  match jget j "choices" with
  | none => none
  | some c =>
    match jidx c 0 with
    | none => none
    | some c0 =>
      match jget c0 "delta" with
      | none => none
      | some delta =>
        match jget delta "content" with
        | some (.str s) => some s
        | _ => none

/-- Outcome of one loop iteration of `stream_response` on one line
(main.py lines 122-136): yield a delta, break at `[DONE]`, or continue. -/
inductive FrameStep where
  | skip
  | done
  | emit (c : String)
deriving DecidableEq, Repr

/-- One iteration of the `for chunk in r.iter_lines()` body: the
`if chunk:` guard, the `data: ` test, the `[DONE]` break, the JSON
parse with `except: continue`, and the content yield. -/
def process_line (line : String) : FrameStep :=
  if line = "" then .skip
  else if strStartsWith line "data: " then
    let data := pystrip (strDrop line 6)
    if data = "[DONE]" then .done
    else
      match json_loads data with
      | none => .skip
      | some j =>
        match extract_content j with
        | some c => .emit c
        | none => .skip
  else .skip

/-- Run the frame loop over the delivered lines. Returns the yielded
fragments in order, the accumulated `full_response`, and whether the
loop ended by the `[DONE]` break. -/
def run_frames : List String → List String × String × Bool
  | [] => ([], "", false)
  | line :: rest =>
    match process_line line with
    | .done => ([], "", true)
    | .emit c =>
        let r := run_frames rest
        (c :: r.1, c ++ r.2.1, r.2.2)
    | .skip => run_frames rest

/-- Behaviour of the upstream HTTP call, as an oracle. `connectError`
is an exception before any line is delivered (connection failure, or a
non-2xx status raised by `raise_for_status`). `stream chunks failure`
delivers the given lines; a `some err` failure is an exception raised
by `iter_lines` after those lines (for example the 60 second inactivity
timeout), and is only reached when no `[DONE]` break happened first. -/
inductive Upstream where
  | connectError (err : String)
  | stream (chunks : List String) (failure : Option String)
deriving DecidableEq, Repr

/-- The error fragment yielded by the `except` arm (main.py line 139). -/
def errorFragment (err : String) : String := "\n\nError: " ++ err

/-- `stream_response` (main.py lines 109-140) as a function from the
upstream oracle and the entry state to the yielded fragments and the
resulting state. `save_memory` runs only when the `with` block exits
without an exception; an exception instead appends the single error
fragment and commits nothing. An empty message list raises IndexError
at `messages[-1]` inside the `try`, which the same `except` turns into
an error fragment. -/
def stream_response (uid : String) (messages : List Turn) (up : Upstream)
    (s : ServerState) : List String × ServerState :=
  match up with
  | .connectError err => ([errorFragment err], s)
  | .stream chunks failure =>
    let r := run_frames chunks
    match failure, r.2.2 with
    | some err, false => (r.1 ++ [errorFragment err], s)
    | _, _ =>
      match messages.getLast? with
      | some t => (r.1, save_memory uid t.content r.2.1 s)
      | none => (r.1 ++ [errorFragment "list index out of range"], s)

/-- The `ChatRequest` pydantic model (main.py lines 77-82). -/
structure ChatRequest where
  message : String
  uid : Option String := none
  model : Option String := some "fast"
  temperature : Option Rat := some (13 / 20)
  max_tokens : Option Int := some 1024
deriving DecidableEq, Repr

/-- Response of an endpoint handler: either a plain JSON dict
`\x7b"status": ..., "response": ...\x7d`, or a `StreamingResponse` whose
generator will later run `stream_response` with the given arguments. -/
inductive ChatResponse where
  | plain (status response : String)
  | streaming (uid : String) (messages : List Turn) (model : Option String)
      (temperature : Option Rat) (max_tokens : Option Int)
deriving DecidableEq, Repr

/-- The `/v8/chat` handler (main.py lines 145-154). `fresh` is the
`uuid.uuid4()` oracle and `now` the clock oracle. Note the `requests`
counter is incremented before validation (line 149). -/
def chat (req : ChatRequest) (fresh : String) (now : Int)
    (s : ServerState) : ChatResponse × ServerState :=
  let uid := get_user_id req.uid fresh
  let msg := pystrip req.message
  let s1 := { s with stats_requests := s.stats_requests + 1 }
  if msg = "" then (.plain "error" "Say something 🙂", s1)
  else if MAX_MESSAGE_LENGTH < msg.length then
    (.plain "error" "Message too long.", s1)
  else
    let rl := rate_limit now uid s1
    if rl.1 then
      (.streaming uid (build_messages uid msg rl.2.user_memory)
         req.model req.temperature req.max_tokens, rl.2)
    else (.plain "limited" "Chill for a sec ⏳", rl.2)

/-- The `/v8/reset` handler (main.py lines 159-164): `data.get("uid",
"guest")` is modelled by an optional body field defaulting to "guest". -/
def reset (body_uid : Option String) (s : ServerState) :
    ChatResponse × ServerState :=
  let uid := body_uid.getD "guest"
  (.plain "success" "Chat cleared.",
   { s with user_memory := dpop s.user_memory uid })

/-- The three literal frames of the round-trip scenario. -/
def frameA : String :=
  "data: \x7b\"choices\":[\x7b\"delta\":\x7b\"content\":\"A\"\x7d\x7d]\x7d"

/-- Second valid frame of the round-trip scenario. -/
def frameB : String :=
  "data: \x7b\"choices\":[\x7b\"delta\":\x7b\"content\":\"B\"\x7d\x7d]\x7d"

/-- The end-of-stream frame. -/
def frameDone : String := "data: [DONE]"

example : run_frames [frameA, frameB, frameDone] = (["A", "B"], "AB", true) := by
  decide

example : (json_loads "\x7bgarbage").isNone = true := by decide

example : process_line "data: \x7bgarbage" = .skip := by decide

example : process_line frameA = .emit "A" := by decide

/-! ### Association list lemmas -/

theorem dlookup_dset_self {α : Type} (m : List (String × α)) (k : String)
    (v : α) : dlookup (dset m k v) k = some v := by
  induction m with
  | nil => simp [dset, dlookup]
  | cons p rest ih =>
    obtain ⟨a, b⟩ := p
    by_cases h : a = k
    · simp [dset, h, dlookup]
    · simp [dset, h, dlookup, ih]

theorem dlookup_dset_ne {α : Type} (m : List (String × α)) (k k' : String)
    (v : α) (h : k' ≠ k) : dlookup (dset m k v) k' = dlookup m k' := by
  induction m with
  | nil => simp [dset, dlookup, Ne.symm h]
  | cons p rest ih =>
    obtain ⟨a, b⟩ := p
    by_cases hak : a = k
    · simp [dset, hak, dlookup, Ne.symm h]
    · simp [dset, hak, dlookup, ih]

theorem dlookup_append_of_none {α : Type} (m1 m2 : List (String × α))
    (k : String) (hm : dlookup m1 k = none) :
    dlookup (m1 ++ m2) k = dlookup m2 k := by
  induction m1 with
  | nil => simp
  | cons p rest ih =>
    obtain ⟨a, b⟩ := p
    by_cases hak : a = k
    · simp [dlookup, hak] at hm
    · simp [dlookup, hak] at hm ⊢
      exact ih hm

theorem dlookup_append_single_ne {α : Type} (m : List (String × α))
    (k k' : String) (v : α) (h : k' ≠ k) :
    dlookup (m ++ [(k, v)]) k' = dlookup m k' := by
  induction m with
  | nil => simp [dlookup, Ne.symm h]
  | cons p rest ih =>
    obtain ⟨a, b⟩ := p
    by_cases hak : a = k'
    · simp [dlookup, hak]
    · simp [dlookup, hak, ih]

theorem dlookup_dsetdefault_self {α : Type} (m : List (String × α))
    (k : String) (v : α) :
    dlookup (dsetdefault m k v) k = some ((dlookup m k).getD v) := by
  unfold dsetdefault
  cases hm : dlookup m k with
  | some w => simp [hm]
  | none =>
    rw [dlookup_append_of_none m _ k hm]
    simp [dlookup]

theorem dlookup_dsetdefault_ne {α : Type} (m : List (String × α))
    (k k' : String) (v : α) (h : k' ≠ k) :
    dlookup (dsetdefault m k v) k' = dlookup m k' := by
  unfold dsetdefault
  cases hm : dlookup m k with
  | some w => rfl
  | none => exact dlookup_append_single_ne m k k' v h

theorem dlookup_dpop_self {α : Type} (m : List (String × α)) (k : String) :
    dlookup (dpop m k) k = none := by
  induction m with
  | nil => simp [dpop, dlookup]
  | cons p rest ih =>
    obtain ⟨a, b⟩ := p
    by_cases hak : a = k
    · simp [dpop, hak, ih]
    · simp [dpop, hak, dlookup, ih]

theorem dlookup_dpop_ne {α : Type} (m : List (String × α)) (k k' : String)
    (h : k' ≠ k) : dlookup (dpop m k) k' = dlookup m k' := by
  induction m with
  | nil => simp [dpop]
  | cons p rest ih =>
    obtain ⟨a, b⟩ := p
    by_cases hak : a = k
    · simp [dpop, hak, dlookup, Ne.symm h, ih]
    · simp [dpop, hak, dlookup, ih]

theorem dpop_dpop {α : Type} (m : List (String × α)) (k : String) :
    dpop (dpop m k) k = dpop m k := by
  induction m with
  | nil => rfl
  | cons p rest ih =>
    obtain ⟨a, b⟩ := p
    by_cases hak : a = k
    · simp [dpop, hak, ih]
    · simp [dpop, hak, ih]

theorem dpop_of_lookup_none {α : Type} (m : List (String × α)) (k : String)
    (h : dlookup m k = none) : dpop m k = m := by
  induction m with
  | nil => rfl
  | cons p rest ih =>
    obtain ⟨a, b⟩ := p
    by_cases hak : a = k
    · simp [dlookup, hak] at h
    · simp [dlookup, hak] at h
      simp [dpop, hak, ih h]

/-! ### Trailing-window lemmas -/

theorem length_rtake {α : Type} (l : List α) (n : Nat) :
    (rtake l n).length = min n l.length := by
  simp only [rtake, List.length_drop]
  omega

theorem rtake_of_length_le {α : Type} (l : List α) (n : Nat)
    (h : l.length ≤ n) : rtake l n = l := by
  have h0 : l.length - n = 0 := by omega
  simp [rtake, h0]

theorem rtake_append_rtake {α : Type} (l t : List α) (n : Nat) :
    rtake (rtake l n ++ t) n = rtake (l ++ t) n := by
  unfold rtake
  rcases le_or_lt l.length n with h | h
  · have h0 : l.length - n = 0 := by omega
    simp [h0]
  · have hlen : (l.drop (l.length - n)).length = n := by
      rw [List.length_drop]; omega
    rw [List.drop_append_eq_append_drop, List.drop_append_eq_append_drop,
        List.drop_drop]
    simp only [List.length_append, List.length_drop]
    congr 2 <;> omega

theorem rtake_append_pair {α : Type} (l : List α) (x y : α) (n : Nat)
    (h : 2 ≤ n) : ∃ p, rtake (l ++ [x, y]) n = p ++ [x, y] := by
  refine ⟨l.drop ((l ++ [x, y]).length - n), ?_⟩
  unfold rtake
  rw [List.drop_append_eq_append_drop]
  have h2 : (l ++ [x, y]).length - n - l.length = 0 := by
    simp only [List.length_append, List.length_cons, List.length_nil]
    omega
  rw [h2, List.drop_zero]

/-! ### Conversation memory lemmas -/

/-- The pair of turns appended by one commit. -/
def turnsOf : List (String × String) → List Turn
  | [] => []
  | (u, a) :: rest => ⟨"user", u⟩ :: ⟨"assistant", a⟩ :: turnsOf rest

/-- N successive commits (`save_memory` calls) for one identity. -/
def commit_list (uid : String) (pairs : List (String × String))
    (s : ServerState) : ServerState :=
  pairs.foldl (fun st p => save_memory uid p.1 p.2 st) s

theorem length_turnsOf (pairs : List (String × String)) :
    (turnsOf pairs).length = 2 * pairs.length := by
  induction pairs with
  | nil => rfl
  | cons p rest ih =>
    obtain ⟨u, a⟩ := p
    simp [turnsOf, ih]
    omega

theorem save_memory_history (uid u a : String) (s : ServerState) :
    dlookup (save_memory uid u a s).user_memory uid
      = some (rtake (((dlookup s.user_memory uid).getD [])
          ++ [⟨"user", u⟩, ⟨"assistant", a⟩]) (MAX_MEMORY_MESSAGES * 2)) := by
  unfold save_memory
  simp [dlookup_dset_self, dlookup_dsetdefault_self]

theorem save_memory_frame (uid u a : String) (s : ServerState) :
    (save_memory uid u a s).user_requests = s.user_requests ∧
    (save_memory uid u a s).stats_requests = s.stats_requests ∧
    (save_memory uid u a s).stats_blocked = s.stats_blocked := by
  unfold save_memory
  exact ⟨rfl, rfl, rfl⟩

theorem save_memory_other (uid u a k : String) (s : ServerState)
    (h : k ≠ uid) :
    dlookup (save_memory uid u a s).user_memory k
      = dlookup s.user_memory k := by
  unfold save_memory
  rw [dlookup_dset_ne _ _ _ _ h, dlookup_dsetdefault_ne _ _ _ _ h]

theorem commit_list_history (uid : String) (pairs : List (String × String))
    (s : ServerState)
    (hlen : ((dlookup s.user_memory uid).getD []).length
              ≤ MAX_MEMORY_MESSAGES * 2) :
    (dlookup (commit_list uid pairs s).user_memory uid).getD []
      = rtake (((dlookup s.user_memory uid).getD []) ++ turnsOf pairs)
          (MAX_MEMORY_MESSAGES * 2) := by
  induction pairs generalizing s with
  | nil =>
    simp only [commit_list, List.foldl_nil, turnsOf, List.append_nil]
    rw [rtake_of_length_le _ _ hlen]
  | cons p rest ih =>
    obtain ⟨u, a⟩ := p
    have step : commit_list uid ((u, a) :: rest) s
        = commit_list uid rest (save_memory uid u a s) := rfl
    rw [step, ih (save_memory uid u a s)
        (by rw [save_memory_history]; simp only [Option.getD_some, length_rtake]; omega)]
    rw [save_memory_history]
    simp only [Option.getD_some]
    rw [rtake_append_rtake]
    simp [turnsOf, List.append_assoc]

/-! ### Claim C3: conversation memory window -/

/-- C3: each commit (`save_memory`) appends a user turn then an assistant
turn and truncates the history to the trailing `MAX_MEMORY_MESSAGES * 2`
turns (oldest dropped first); starting from the empty initial state,
after N commits the identity history equals the trailing window of the
full turn sequence, so its length is `min (2 * N) (MAX_MEMORY_MESSAGES * 2)`
and the retained turns are the most recent ones in original order. -/
theorem C3_memory_window :
    (∀ (uid u a : String) (s : ServerState),
        dlookup (save_memory uid u a s).user_memory uid
          = some (rtake (((dlookup s.user_memory uid).getD [])
              ++ [⟨"user", u⟩, ⟨"assistant", a⟩]) (MAX_MEMORY_MESSAGES * 2))) ∧
    (∀ (uid : String) (pairs : List (String × String)),
        (dlookup (commit_list uid pairs initState).user_memory uid).getD []
            = rtake (turnsOf pairs) (MAX_MEMORY_MESSAGES * 2) ∧
        ((dlookup (commit_list uid pairs initState).user_memory uid).getD
            []).length = min (2 * pairs.length) (MAX_MEMORY_MESSAGES * 2)) := by
  refine ⟨save_memory_history, fun uid pairs => ?_⟩
  have hinit : (dlookup initState.user_memory uid).getD [] = [] := rfl
  have hmain := commit_list_history uid pairs initState
    (by rw [hinit]; simp)
  rw [hinit, List.nil_append] at hmain
  refine ⟨hmain, ?_⟩
  rw [hmain, length_rtake, length_turnsOf, Nat.min_comm]

/-! ### Claim C9: reset is idempotent and local -/

/-- C9: resetting an identity always returns the same success response,
removes exactly that identity from the history map, leaves every other
identity and all other state unchanged, does nothing at all on an
identity with no stored history, and is idempotent. -/
theorem C9_reset_idempotent (uid : String) (s : ServerState) :
    (reset (some uid) s).1 = ChatResponse.plain "success" "Chat cleared." ∧
    dlookup (reset (some uid) s).2.user_memory uid = none ∧
    (∀ k, k ≠ uid →
        dlookup (reset (some uid) s).2.user_memory k
          = dlookup s.user_memory k) ∧
    (reset (some uid) s).2.user_requests = s.user_requests ∧
    (reset (some uid) s).2.stats_requests = s.stats_requests ∧
    (reset (some uid) s).2.stats_blocked = s.stats_blocked ∧
    (dlookup s.user_memory uid = none → (reset (some uid) s).2 = s) ∧
    reset (some uid) (reset (some uid) s).2 = reset (some uid) s := by
  refine ⟨rfl, dlookup_dpop_self _ _,
    fun k hk => dlookup_dpop_ne _ _ _ hk, rfl, rfl, rfl, ?_, ?_⟩
  · intro h
    show ({ s with user_memory := dpop s.user_memory uid } : ServerState) = s
    rw [dpop_of_lookup_none _ _ h]
  · show (ChatResponse.plain "success" "Chat cleared.",
        ({ s with user_memory := dpop (dpop s.user_memory uid) uid } : ServerState)) = _
    rw [dpop_dpop]
    rfl

/-- A sample populated state for concrete instantiations. -/
def sampleState : ServerState :=
  ⟨[("u1", [⟨"user", "hi"⟩, ⟨"assistant", "hello"⟩]), ("u2", [])],
   [("u1", [0])], 3, 1⟩

theorem C9_reset_idempotent_witness :
    dlookup (reset (some "u1") sampleState).2.user_memory "u1" = none ∧
    dlookup (reset (some "u1") sampleState).2.user_memory "u2"
      = dlookup sampleState.user_memory "u2" ∧
    (reset (some "u3") sampleState).2 = sampleState :=
  ⟨(C9_reset_idempotent "u1" sampleState).2.1,
   (C9_reset_idempotent "u1" sampleState).2.2.1 "u2" (by decide),
   (C9_reset_idempotent "u3" sampleState).2.2.2.2.2.2.1 (by decide)⟩

/-! ### Claim C10: reset without a uid field targets "guest" -/

/-- C10: a reset request whose body has no uid field substitutes the
identity "guest": it removes the history stored under "guest" (if any)
and still returns the success response. -/
theorem C10_reset_guest (s : ServerState) :
    reset none s = (ChatResponse.plain "success" "Chat cleared.",
      { s with user_memory := dpop s.user_memory "guest" }) ∧
    dlookup (reset none s).2.user_memory "guest" = none :=
  ⟨rfl, dlookup_dpop_self _ _⟩

/-! ### Claim C2: sliding-window rate limiter -/

/-- C2: each `rate_limit` call first prunes the identity window to the
timestamps within 60 seconds of now (so every remaining entry satisfies
`now - t < 60`); if at least `REQUESTS_PER_MINUTE` pruned timestamps
remain it increments the global blocked counter and returns false
without appending, otherwise it appends now and returns true; a window
of at most `REQUESTS_PER_MINUTE` entries stays at most that size, so the
31st request inside the 60-second window is rejected without extending
the window. Memory and the requests counter are untouched. -/
theorem C2_rate_limit_window (now : Int) (uid : String) (s : ServerState) :
    (∀ t ∈ (dlookup (rate_limit now uid s).2.user_requests uid).getD [],
        now - t < 60) ∧
    (REQUESTS_PER_MINUTE ≤
        (((dlookup s.user_requests uid).getD []).filter
          (fun t => decide (now - t < 60))).length →
      (rate_limit now uid s).1 = false ∧
      (rate_limit now uid s).2.stats_blocked = s.stats_blocked + 1 ∧
      (dlookup (rate_limit now uid s).2.user_requests uid).getD []
        = ((dlookup s.user_requests uid).getD []).filter
            (fun t => decide (now - t < 60))) ∧
    ((((dlookup s.user_requests uid).getD []).filter
          (fun t => decide (now - t < 60))).length < REQUESTS_PER_MINUTE →
      (rate_limit now uid s).1 = true ∧
      (rate_limit now uid s).2.stats_blocked = s.stats_blocked ∧
      (dlookup (rate_limit now uid s).2.user_requests uid).getD []
        = ((dlookup s.user_requests uid).getD []).filter
            (fun t => decide (now - t < 60)) ++ [now]) ∧
    (((dlookup s.user_requests uid).getD []).length ≤ REQUESTS_PER_MINUTE →
      ((dlookup (rate_limit now uid s).2.user_requests uid).getD []).length
        ≤ REQUESTS_PER_MINUTE) ∧
    (rate_limit now uid s).2.user_memory = s.user_memory ∧
    (rate_limit now uid s).2.stats_requests = s.stats_requests := by
  have hbase : (dlookup (dsetdefault s.user_requests uid ([] : List Int))
      uid).getD [] = (dlookup s.user_requests uid).getD [] := by
    rw [dlookup_dsetdefault_self]
    cases dlookup s.user_requests uid <;> rfl
  by_cases hge : REQUESTS_PER_MINUTE ≤
      (((dlookup s.user_requests uid).getD []).filter
        (fun t => decide (now - t < 60))).length
  · have hres : rate_limit now uid s =
        (false, { s with
          user_requests := dset (dsetdefault s.user_requests uid [])
            uid (((dlookup s.user_requests uid).getD []).filter
              (fun t => decide (now - t < 60))),
          stats_blocked := s.stats_blocked + 1 }) := by
      simp only [rate_limit]
      rw [hbase, if_pos hge]
    have hwin : (dlookup (rate_limit now uid s).2.user_requests uid).getD []
        = ((dlookup s.user_requests uid).getD []).filter
            (fun t => decide (now - t < 60)) := by
      rw [hres]
      simp [dlookup_dset_self]
    refine ⟨?_, fun _ => ⟨by rw [hres], by rw [hres], hwin⟩,
      fun hlt => absurd hge (by omega), ?_, by rw [hres], by rw [hres]⟩
    · intro t ht
      rw [hwin] at ht
      exact of_decide_eq_true (List.mem_filter.mp ht).2
    · intro hlen
      rw [hwin]
      calc (((dlookup s.user_requests uid).getD []).filter
              (fun t => decide (now - t < 60))).length
          ≤ ((dlookup s.user_requests uid).getD []).length :=
            List.length_filter_le _ _
        _ ≤ REQUESTS_PER_MINUTE := hlen
  · have hlt : (((dlookup s.user_requests uid).getD []).filter
        (fun t => decide (now - t < 60))).length < REQUESTS_PER_MINUTE := by
      omega
    have hres : rate_limit now uid s =
        (true, { s with
          user_requests := dset (dset (dsetdefault s.user_requests uid [])
            uid (((dlookup s.user_requests uid).getD []).filter
              (fun t => decide (now - t < 60))))
            uid ((((dlookup s.user_requests uid).getD []).filter
              (fun t => decide (now - t < 60))) ++ [now]) }) := by
      simp only [rate_limit]
      rw [hbase, if_neg hge]
    have hwin : (dlookup (rate_limit now uid s).2.user_requests uid).getD []
        = ((dlookup s.user_requests uid).getD []).filter
            (fun t => decide (now - t < 60)) ++ [now] := by
      rw [hres]
      simp [dlookup_dset_self]
    refine ⟨?_, fun hge2 => absurd hge2 hge,
      fun _ => ⟨by rw [hres], by rw [hres], hwin⟩, ?_, by rw [hres], by rw [hres]⟩
    · intro t ht
      rw [hwin] at ht
      rcases List.mem_append.mp ht with hmem | hnow
      · exact of_decide_eq_true (List.mem_filter.mp hmem).2
      · have : t = now := by simpa using hnow
        rw [this, sub_self]
        norm_num
    · intro hlen
      rw [hwin]
      simp only [List.length_append, List.length_cons, List.length_nil]
      omega

/-- A state whose identity "u" already holds a full 30-entry window. -/
def fullWindowState : ServerState :=
  ⟨[], [("u", List.replicate 30 0)], 30, 0⟩

theorem C2_rate_limit_window_witness :
    (rate_limit 0 "u" fullWindowState).1 = false ∧
    (rate_limit 0 "u" fullWindowState).2.stats_blocked
      = fullWindowState.stats_blocked + 1 ∧
    (dlookup (rate_limit 0 "u" fullWindowState).2.user_requests "u").getD []
      = ((dlookup fullWindowState.user_requests "u").getD []).filter
          (fun t => decide ((0 : Int) - t < 60)) ∧
    (rate_limit 0 "u" initState).1 = true :=
  ⟨((C2_rate_limit_window 0 "u" fullWindowState).2.1 (by decide)).1,
   ((C2_rate_limit_window 0 "u" fullWindowState).2.1 (by decide)).2.1,
   ((C2_rate_limit_window 0 "u" fullWindowState).2.1 (by decide)).2.2,
   ((C2_rate_limit_window 0 "u" initState).2.2.1 (by decide)).1⟩

/-! ### Stream claims: C1, C5, C6, C7 -/

/-- A minimal prompt list ending in a user turn, for instantiations. -/
def msgsHi : List Turn := [⟨"system", "sys"⟩, ⟨"user", "hi"⟩]

/-- C1: an upstream stream delivering exactly the two content frames and
then `[DONE]` yields exactly the fragments "A" then "B", and the
identity history afterwards ends with the user turn holding the request
text followed by the assistant turn "AB". -/
theorem C1_roundtrip (uid req : String) (msgs : List Turn) (s : ServerState)
    (hlast : msgs.getLast? = some ⟨"user", req⟩) :
    (stream_response uid msgs
        (.stream [frameA, frameB, frameDone] none) s).1 = ["A", "B"] ∧
    ∃ p, dlookup (stream_response uid msgs
        (.stream [frameA, frameB, frameDone] none) s).2.user_memory uid
      = some (p ++ [⟨"user", req⟩, ⟨"assistant", "AB"⟩]) := by
  have hrun : run_frames [frameA, frameB, frameDone]
      = (["A", "B"], "AB", true) := by decide
  have hres : stream_response uid msgs
      (.stream [frameA, frameB, frameDone] none) s
      = (["A", "B"], save_memory uid req "AB" s) := by
    simp only [stream_response, hrun, hlast]
  refine ⟨by rw [hres], ?_⟩
  rw [hres]
  obtain ⟨p, hp⟩ := rtake_append_pair
    ((dlookup s.user_memory uid).getD []) (⟨"user", req⟩ : Turn)
    (⟨"assistant", "AB"⟩ : Turn) (MAX_MEMORY_MESSAGES * 2) (by norm_num [MAX_MEMORY_MESSAGES])
  exact ⟨p, by rw [save_memory_history, hp]⟩

theorem C1_roundtrip_witness :
    (stream_response "u1" msgsHi
        (.stream [frameA, frameB, frameDone] none) initState).1 = ["A", "B"] ∧
    ∃ p, dlookup (stream_response "u1" msgsHi
        (.stream [frameA, frameB, frameDone] none) initState).2.user_memory "u1"
      = some (p ++ [⟨"user", "hi"⟩, ⟨"assistant", "AB"⟩]) :=
  C1_roundtrip "u1" "hi" msgsHi initState (by decide)

/-- C5 amended: when the stream terminates through a transport failure
(an exception before or during iteration, with no `[DONE]` break), the
turn is NOT committed: `save_memory` is skipped and the state is
returned unchanged. The commit happens only when the `with` block exits
without an exception. -/
theorem C5_no_commit_on_transport_failure (uid : String) (msgs : List Turn)
    (chunks : List String) (err : String) (s : ServerState)
    (hnotdone : (run_frames chunks).2.2 = false) :
    (stream_response uid msgs (.stream chunks (some err)) s).2 = s ∧
    (stream_response uid msgs (.connectError err) s).2 = s := by
  constructor
  · simp only [stream_response, hnotdone]
  · rfl

theorem C5_no_commit_witness :
    (stream_response "u1" msgsHi (.stream [frameA] (some "boom"))
        initState).2 = initState :=
  (C5_no_commit_on_transport_failure "u1" msgsHi [frameA] "boom" initState
    (by decide)).1

/-- C5 counterexample: with the upstream delivering one valid "A" frame
and then failing, the claim predicts a committed turn (user "hi",
assistant "A", the accumulated text); the code instead leaves the state
untouched — the history map stays empty. -/
theorem C5_counterexample :
    (stream_response "u1" msgsHi (.stream [frameA] (some "boom"))
        initState).2 ≠ save_memory "u1" "hi" "A" initState ∧
    (stream_response "u1" msgsHi (.stream [frameA] (some "boom"))
        initState).2.user_memory = [] := by
  decide

/-- C6: on a transport failure the fragment sequence is the normal
fragments followed by exactly one final error fragment, which carries
the detectable head "\n\nError: ", and then terminates; the model
consumes its single upstream oracle once, so no retry exists. -/
theorem C6_error_fragment (uid : String) (msgs : List Turn)
    (chunks : List String) (err : String) (s : ServerState)
    (hnotdone : (run_frames chunks).2.2 = false) :
    (stream_response uid msgs (.connectError err) s).1
      = [errorFragment err] ∧
    (stream_response uid msgs (.stream chunks (some err)) s).1
      = (run_frames chunks).1 ++ [errorFragment err] ∧
    strStartsWith (errorFragment err) "\n\nError: " = true := by
  refine ⟨rfl, ?_, ?_⟩
  · simp only [stream_response, hnotdone]
  · unfold strStartsWith errorFragment
    rw [String.data_append, List.isPrefixOf_iff_prefix]
    exact List.prefix_append _ _

theorem C6_error_fragment_witness :
    (stream_response "u1" msgsHi (.connectError "boom") initState).1
      = [errorFragment "boom"] ∧
    (stream_response "u1" msgsHi (.stream [frameA] (some "boom"))
        initState).1 = (run_frames [frameA]).1 ++ [errorFragment "boom"] ∧
    strStartsWith (errorFragment "boom") "\n\nError: " = true :=
  C6_error_fragment "u1" msgsHi [frameA] "boom" initState (by decide)

theorem run_frames_skip_middle (g : String) (h : process_line g = .skip)
    (xs ys : List String) :
    run_frames (xs ++ g :: ys) = run_frames (xs ++ ys) := by
  induction xs with
  | nil => simp [run_frames, h]
  | cons x rest ih =>
    simp only [List.cons_append, run_frames, List.append_eq, ih]

/-- C7: a `data: ` frame whose payload fails to parse as JSON (and is
not the `[DONE]` sentinel) is silently skipped wherever it appears: the
whole run over the lines with the frame equals the run without it, so
the stream is not aborted and exactly the valid fragments are yielded. -/
theorem C7_malformed_frame_skipped (xs ys : List String) (g : String)
    (uid : String) (msgs : List Turn) (s : ServerState)
    (hdata : strStartsWith g "data: " = true)
    (hnotdone : pystrip (strDrop g 6) ≠ "[DONE]")
    (hbad : (json_loads (pystrip (strDrop g 6))).isNone = true) :
    run_frames (xs ++ g :: ys) = run_frames (xs ++ ys) ∧
    stream_response uid msgs (.stream (xs ++ g :: ys) none) s
      = stream_response uid msgs (.stream (xs ++ ys) none) s := by
  have hskip : process_line g = .skip := by
    by_cases hne : g = ""
    · simp [process_line, hne]
    · have hb : json_loads (pystrip (strDrop g 6)) = none :=
        Option.isNone_iff_eq_none.mp hbad
      simp [process_line, hne, hdata, hnotdone, hb]
  refine ⟨run_frames_skip_middle g hskip xs ys, ?_⟩
  simp only [stream_response, run_frames_skip_middle g hskip xs ys]

theorem C7_malformed_frame_skipped_witness :
    run_frames ([frameA] ++ "data: \x7bgarbage" :: [frameB, frameDone])
      = run_frames ([frameA] ++ [frameB, frameDone]) ∧
    stream_response "u1" msgsHi
        (.stream ([frameA] ++ "data: \x7bgarbage" :: [frameB, frameDone]) none)
        initState
      = stream_response "u1" msgsHi
        (.stream ([frameA] ++ [frameB, frameDone]) none) initState :=
  C7_malformed_frame_skipped [frameA] [frameB, frameDone]
    "data: \x7bgarbage" "u1" msgsHi initState (by decide) (by decide) (by decide)

/-! ### Chat claims: C4 and C8 -/

theorem length_mk (l : List Char) : (String.mk l).length = l.length := rfl

theorem pystrip_replicate (n : Nat) (c : Char) (h : pyIsSpace c = false) :
    pystrip (String.mk (List.replicate n c)) = String.mk (List.replicate n c) := by
  have hdw : ∀ m : Nat,
      (List.replicate m c).dropWhile pyIsSpace = List.replicate m c := by
    intro m
    cases m with
    | zero => rfl
    | succ k => simp [List.replicate_succ, List.dropWhile_cons, h]
  show (String.mk ((((List.replicate n c).dropWhile
      pyIsSpace).reverse.dropWhile pyIsSpace).reverse)) = _
  rw [hdw, List.reverse_replicate, hdw, List.reverse_replicate]

/-- A request whose message trims to the empty string. -/
def emptyReq : ChatRequest := { message := " " }

/-- A request whose message is 3001 characters long. -/
def longReq : ChatRequest := { message := String.mk (List.replicate 3001 'a') }

/-- A request whose message is exactly 3000 characters long. -/
def fullLenReq : ChatRequest := { message := String.mk (List.replicate 3000 'a') }

/-- C4 counterexample: on an empty (after trimming) message from the
fresh initial state, the global requests counter changes from 0 to 1
(main.py increments it on line 149, before validation), falsifying the
claim that both global counters are unchanged. -/
theorem C4_counterexample :
    (chat emptyReq "fresh" 0 initState).2.stats_requests
      ≠ initState.stats_requests := by
  decide

/-- C4 amended: for an empty or oversized trimmed message the handler
returns the local error response and never reaches the rate limiter or
the upstream call (the result is a plain response, not a streaming one);
the history, the request window and the blocked counter are unchanged,
but the global requests counter is incremented by one. -/
theorem C4_invalid_input_state (req : ChatRequest) (fresh : String)
    (now : Int) (s : ServerState)
    (h : pystrip req.message = "" ∨
         MAX_MESSAGE_LENGTH < (pystrip req.message).length) :
    (chat req fresh now s).1
      = (if pystrip req.message = ""
         then ChatResponse.plain "error" "Say something 🙂"
         else ChatResponse.plain "error" "Message too long.") ∧
    (chat req fresh now s).2.user_memory = s.user_memory ∧
    (chat req fresh now s).2.user_requests = s.user_requests ∧
    (chat req fresh now s).2.stats_blocked = s.stats_blocked ∧
    (chat req fresh now s).2.stats_requests = s.stats_requests + 1 := by
  by_cases hempty : pystrip req.message = ""
  · simp [chat, hempty]
  · have hlong : MAX_MESSAGE_LENGTH < (pystrip req.message).length :=
      h.resolve_left hempty
    simp [chat, hempty, hlong]

theorem C4_invalid_input_witness :
    (chat emptyReq "fresh" 0 initState).1
      = ChatResponse.plain "error" "Say something 🙂" ∧
    (chat emptyReq "fresh" 0 initState).2.stats_requests
      = initState.stats_requests + 1 ∧
    (chat longReq "fresh" 0 initState).1
      = ChatResponse.plain "error" "Message too long." := by
  have hstrip : pystrip longReq.message = String.mk (List.replicate 3001 'a') :=
    pystrip_replicate 3001 'a' (by decide)
  have hlen : (pystrip longReq.message).length = 3001 := by
    rw [hstrip, length_mk, List.length_replicate]
  have hne : pystrip longReq.message ≠ "" := by
    intro he
    rw [he] at hlen
    exact absurd hlen (by decide)
  have h1 := C4_invalid_input_state emptyReq "fresh" 0 initState
    (Or.inl (by decide))
  have h2 := C4_invalid_input_state longReq "fresh" 0 initState
    (Or.inr (by rw [hlen]; decide))
  refine ⟨?_, h1.2.2.2.2, ?_⟩
  · rw [h1.1, if_pos (by decide)]
  · rw [h2.1, if_neg hne]

/-- C8: a trimmed message of exactly MAX_MESSAGE_LENGTH characters
passes validation (the outcome is the rate-limit rejection or the
streaming response, never an input error), while MAX_MESSAGE_LENGTH + 1
characters are rejected with the too-long error response. -/
theorem C8_length_boundary (req : ChatRequest) (fresh : String) (now : Int)
    (s : ServerState) :
    ((pystrip req.message).length = MAX_MESSAGE_LENGTH →
      (chat req fresh now s).1
        = ChatResponse.plain "limited" "Chill for a sec ⏳" ∨
      ∃ u msgs2, (chat req fresh now s).1
        = ChatResponse.streaming u msgs2 req.model req.temperature
            req.max_tokens) ∧
    ((pystrip req.message).length = MAX_MESSAGE_LENGTH + 1 →
      (chat req fresh now s).1
        = ChatResponse.plain "error" "Message too long.") := by
  constructor
  · intro h3000
    have hne : pystrip req.message ≠ "" := by
      intro he
      rw [he] at h3000
      exact absurd h3000 (by decide)
    have hnl : ¬ MAX_MESSAGE_LENGTH < (pystrip req.message).length := by
      omega
    cases hrl : (rate_limit now (get_user_id req.uid fresh)
        { s with stats_requests := s.stats_requests + 1 }).1 with
    | true =>
      right
      refine ⟨get_user_id req.uid fresh, ?_, ?_⟩
      · exact build_messages (get_user_id req.uid fresh)
          (pystrip req.message)
          (rate_limit now (get_user_id req.uid fresh)
            { s with stats_requests := s.stats_requests + 1 }).2.user_memory
      · simp [chat, hne, hnl, hrl]
    | false =>
      left
      simp [chat, hne, hnl, hrl]
  · intro h3001
    have hne : pystrip req.message ≠ "" := by
      intro he
      rw [he] at h3001
      exact absurd h3001 (by decide)
    have hl : MAX_MESSAGE_LENGTH < (pystrip req.message).length := by omega
    simp [chat, hne, hl]

theorem C8_length_boundary_witness :
    ((chat fullLenReq "fresh" 0 initState).1
        = ChatResponse.plain "limited" "Chill for a sec ⏳" ∨
      ∃ u msgs2, (chat fullLenReq "fresh" 0 initState).1
        = ChatResponse.streaming u msgs2 fullLenReq.model
            fullLenReq.temperature fullLenReq.max_tokens) ∧
    (chat longReq "fresh" 0 initState).1
      = ChatResponse.plain "error" "Message too long." :=
  ⟨(C8_length_boundary fullLenReq "fresh" 0 initState).1 (by
      rw [show pystrip fullLenReq.message
            = String.mk (List.replicate 3000 'a')
          from pystrip_replicate 3000 'a' (by decide), length_mk,
          List.length_replicate];
      rfl),
   (C8_length_boundary longReq "fresh" 0 initState).2 (by
      rw [show pystrip longReq.message
            = String.mk (List.replicate 3001 'a')
          from pystrip_replicate 3001 'a' (by decide), length_mk,
          List.length_replicate];
      rfl)⟩
